import Mathlib

/-!
# segmentio/go-queue: the NSQ consumer convenience layer (`consumer.go`)

A shallow embedding of `consumer.go`.

* Go values of type `interface{}` are the inductive type `Value`.
* A run-time panic (a failed single-value type assertion `v.(T)`, a nil-pointer
  dereference) is the result `none` of an `Option`-valued function.
* `Stop` waits on a channel of the library; its result is an `Ending`, which tells a
  panic, a receive that never completes, and a return apart.
* The `go-nsq` library, which the package wraps and whose code is not part of the
  repository, is a parameter `Nsq Cfg Client Logger Handler` of every operation.
* Calls made on the library's consumer are recorded, in order, in a list of `Call`s.
-/

namespace Queue

/-! ## Dynamic values and errors -/

/-- A Go value held in an `interface{}`, as far as `consumer.go` tells values apart:
a `string`, an `int`, a `[]string`, a `[]interface{}`, or a value of some other dynamic
type (the nil interface included), which is carried with what `%v` prints for it. -/
inductive Value where
  | str (s : String)
  | int (n : Int)
  | strs (l : List String)
  | ifaces (l : List Value)
  | other (rendering : String)

/-- A Go `error` value that is not nil. `errorf` is an error made by a `fmt.Errorf` call
of this package, `lib` an error value handed back by the `go-nsq` library; both carry
the text returned by `Error()`. -/
inductive Err where
  | errorf (text : String)
  | lib (text : String)
  deriving DecidableEq, Repr

/-- The method `Error()` of an error value. -/
def Err.Error : Err → String
  | .errorf t => t
  | .lib t => t

/-- The type assertion `value.(string)`: `none` is the run-time panic of a failed
single-value assertion. -/
def assertString : Value → Option String
  | .str s => some s
  | _ => none

/-- The type assertion `value.(int)`: `none` is the run-time panic of a failed
single-value assertion. -/
def assertInt : Value → Option Int
  | .int n => some n
  | _ => none

mutual
/-- What the verb `%v` of package `fmt` prints for a value. -/
def fmtV : Value → String
  | .str s => s
  | .int n => toString n
  | .strs l => "[" ++ " ".intercalate l ++ "]"
  | .ifaces l => "[" ++ fmtVs l ++ "]"
  | .other r => r
/-- The elements of a `[]interface{}` under `%v`, separated by one space. -/
def fmtVs : List Value → String
  | [] => ""
  | [v] => fmtV v
  | v :: w :: rest => fmtV v ++ " " ++ fmtVs (w :: rest)
end

/-- One character of a string under `strconv.Quote` (the verb `%q`), for ASCII input:
the double quote and the backslash are escaped, control characters are written with
their Go escape, every other character stands for itself. -/
def quoteChar (ch : Char) : String :=
  if ch.toNat = 34 then "\\\""
  else if ch.toNat = 92 then "\\\\"
  else if ch.toNat = 7 then "\\a"
  else if ch.toNat = 8 then "\\b"
  else if ch.toNat = 12 then "\\f"
  else if ch.toNat = 10 then "\\n"
  else if ch.toNat = 13 then "\\r"
  else if ch.toNat = 9 then "\\t"
  else if ch.toNat = 11 then "\\v"
  else if ch.toNat < 32 ∨ ch.toNat = 127 then
    "\\x" ++ String.mk [(Nat.toDigits 16 (ch.toNat / 16)).headD '0',
                        (Nat.toDigits 16 (ch.toNat % 16)).headD '0']
  else String.singleton ch

/-- The verb `%q` applied to a string: the string in double quotes, escaped. -/
def quote (s : String) : String :=
  "\"" ++ String.join (s.toList.map quoteChar) ++ "\""

/-- The loop of `strings` over the elements of a `[]interface{}`, with the slice `ret`
built so far: the first element that is not a string ends it with an error. -/
def stringsLoop : List Value → List String → Except Err (List String)
  | [], ret => .ok ret
  | e :: rest, ret =>
    match e with
    | .str s => stringsLoop rest (ret ++ [s])
    | _ => .error (.errorf ("string expected, got " ++ fmtV e))

/-- The helper `strings`: a slice of strings or an error. The Go result `(s, nil)` is
`.ok s`, the result `(nil, err)` is `.error err`. -/
def strings (v : Value) : Except Err (List String) :=
  match v with
  | .strs l => .ok l
  | .ifaces l => stringsLoop l []
  | _ => .error (.errorf "strings expected")

/-! ## The wrapped library -/

/-- The part of the `go-nsq` library that `consumer.go` calls. The library is not part of
the repository, so its behaviour is a parameter: `Cfg` is the state of an `nsq.Config`,
`Client` the state of an `nsq.Consumer`. A library call that reports an error returns the
text of that error. -/
structure Nsq (Cfg Client Logger Handler : Type) where
  /-- The constructor `nsq.NewConfig()`. -/
  NewConfig : Cfg
  /-- The constant `nsq.LogLevelInfo`. -/
  LogLevelInfo : Int
  /-- The logger `log.New(os.Stderr, "", log.LstdFlags)`. -/
  stderrLogger : Logger
  /-- The method `(*nsq.Config).Set(option, value)`. -/
  configSet : Cfg → String → Value → Cfg × Option String
  /-- The constructor `nsq.NewConsumer(topic, channel, config)`. -/
  NewConsumer : String → String → Cfg → Except String Client
  /-- The method `(*nsq.Consumer).SetLogger(log, level)`. -/
  SetLogger : Client → Logger → Int → Client
  /-- The method `(*nsq.Consumer).AddConcurrentHandlers(handler, concurrency)`. -/
  AddConcurrentHandlers : Client → Handler → Int → Client
  /-- The method `(*nsq.Consumer).ConnectToNSQDs(addresses)`. -/
  ConnectToNSQDs : Client → List String → Client × Option String
  /-- The method `(*nsq.Consumer).ConnectToNSQLookupds(addresses)`. -/
  ConnectToNSQLookupds : Client → List String → Client × Option String
  /-- The method `(*nsq.Consumer).Stop()`. -/
  Stop : Client → Client
  /-- The channel `StopChan` of an `nsq.Consumer`: `true` when the library closes the
  channel, so that a receive on it completes, `false` when it never does and a receive
  blocks for ever. -/
  StopChan : Client → Bool

/-- A call of the package into the consumer side of the library, with the error it
returned where it returns one. -/
inductive Call where
  | newConsumer (topic channel : String) (result : Option Err)
  | setLogger (level : Int)
  | addConcurrentHandlers (concurrency : Int)
  | connectToNSQDs (addresses : List String) (result : Option Err)
  | connectToNSQLookupds (addresses : List String) (result : Option Err)
  | stop
  deriving DecidableEq, Repr

/-- How a call of a method that waits on a channel ends: with a run-time panic, blocked
for ever in the receive (with the consumer and the calls made up to there), or with a
return (the consumer, the calls made, and the error returned, `none` for nil). -/
inductive Ending (σ : Type) where
  | panic : Ending σ
  | blocked (state : σ) (calls : List Call) : Ending σ
  | returned (state : σ) (calls : List Call) (err : Option Err) : Ending σ

/-- A connection attempt: a call of `ConnectToNSQDs` or `ConnectToNSQLookupds`. -/
def Call.isConnect : Call → Bool
  | .connectToNSQDs _ _ => true
  | .connectToNSQLookupds _ _ => true
  | _ => false

/-- The error a connection attempt returned (nil for every other call). -/
def Call.connectResult : Call → Option Err
  | .connectToNSQDs _ r => r
  | .connectToNSQLookupds _ r => r
  | _ => none

/-! ## The consumer -/

/-- The struct `Consumer`. A nil `client` pointer and a nil `err` are `none`. -/
structure Consumer (Cfg Client Logger : Type) where
  client : Option Client
  config : Cfg
  nsqds : List String
  nsqlookupds : List String
  concurrency : Int
  channel : String
  topic : String
  level : Int
  log : Logger
  err : Option Err

section Operations

variable {Cfg Client Logger Handler : Type}

/-- The constructor `NewConsumer(topic, channel)`. -/
def NewConsumer (lib : Nsq Cfg Client Logger Handler) (topic channel : String) :
    Consumer Cfg Client Logger :=
  { client := none
    config := lib.NewConfig
    nsqds := []
    nsqlookupds := []
    concurrency := 1
    channel := channel
    topic := topic
    level := lib.LogLevelInfo
    log := lib.stderrLogger
    err := none }

/-- The method `SetLogger(log, level)`. -/
def Consumer.SetLogger (c : Consumer Cfg Client Logger) (log : Logger) (level : Int) :
    Consumer Cfg Client Logger :=
  { c with level := level, log := log }

/-- The method `Set(option, value)`. The result `none` is a run-time panic of the call,
`some c'` is the consumer after a call that returned. -/
def Consumer.Set (lib : Nsq Cfg Client Logger Handler) (c : Consumer Cfg Client Logger)
    (option : String) (value : Value) : Option (Consumer Cfg Client Logger) :=
  if option = "topic" then
    (assertString value).map fun s => { c with topic := s }
  else if option = "channel" then
    (assertString value).map fun s => { c with channel := s }
  else if option = "concurrency" then
    (assertInt value).map fun n => { c with concurrency := n }
  else if option = "nsqd" then
    (assertString value).map fun s => { c with nsqds := [s] }
  else if option = "nsqlookupd" then
    (assertString value).map fun s => { c with nsqlookupds := [s] }
  else if option = "nsqds" then
    match strings value with
    | .error err => some { c with err := some (.errorf (quote option ++ ": " ++ err.Error)) }
    | .ok s => some { c with nsqds := s }
  else if option = "nsqlookupds" then
    match strings value with
    | .error err => some { c with err := some (.errorf (quote option ++ ": " ++ err.Error)) }
    | .ok s => some { c with nsqlookupds := s }
  else
    match lib.configSet c.config option value with
    | (config, some text) => some { c with config := config, err := some (.lib text) }
    | (config, none) => some { c with config := config }

/-- The method `SetMap(options)`: `Set` on every pair of the map. The list holds the
pairs in the order in which the `range` statement visits them; a panic of one `Set`
ends the run. -/
def Consumer.SetMap (lib : Nsq Cfg Client Logger Handler) (c : Consumer Cfg Client Logger) :
    List (String × Value) → Option (Consumer Cfg Client Logger)
  | [] => some c
  | (k, v) :: rest =>
    match c.Set lib k v with
    | none => none
    | some c1 => Consumer.SetMap lib c1 rest

/-- The method `connect()`, with the calls made so far. The result is the consumer, the
calls made, and the error returned (`none` for nil); `none` as a whole is the panic of a
method call on a nil `client`. -/
def Consumer.connect (lib : Nsq Cfg Client Logger Handler) (c : Consumer Cfg Client Logger)
    (calls : List Call) : Option (Consumer Cfg Client Logger × List Call × Option Err) :=
  if c.nsqds.length = 0 ∧ c.nsqlookupds.length = 0 then
    some (c, calls,
      some (.errorf "at least one \"nsqd\" or \"nsqlookupd\" address must be configured"))
  else
    let brokers : Option (Consumer Cfg Client Logger × List Call × Option Err) :=
      if c.nsqds.length > 0 then
        match c.client with
        | none => none
        | some client =>
          let r := lib.ConnectToNSQDs client c.nsqds
          let err := r.2.map Err.lib
          some ({ c with client := some r.1 }, calls ++ [.connectToNSQDs c.nsqds err], err)
      else some (c, calls, none)
    match brokers with
    | none => none
    | some (c1, calls1, some err) => some (c1, calls1, some err)
    | some (c1, calls1, none) =>
      if c1.nsqlookupds.length > 0 then
        match c1.client with
        | none => none
        | some client =>
          let r := lib.ConnectToNSQLookupds client c1.nsqlookupds
          let err := r.2.map Err.lib
          some ({ c1 with client := some r.1 },
            calls1 ++ [.connectToNSQLookupds c1.nsqlookupds err], err)
      else some (c1, calls1, none)

/-- The method `Start(handler)`, with the calls made so far; the result is read as for
`connect`. -/
def Consumer.Start (lib : Nsq Cfg Client Logger Handler) (c : Consumer Cfg Client Logger)
    (handler : Handler) (calls : List Call) :
    Option (Consumer Cfg Client Logger × List Call × Option Err) :=
  match c.err with
  | some err => some (c, calls, some err)
  | none =>
    match lib.NewConsumer c.topic c.channel c.config with
    | .error text =>
      some (c, calls ++ [.newConsumer c.topic c.channel (some (.lib text))], some (.lib text))
    | .ok client =>
      let client1 := lib.SetLogger client c.log c.level
      let client2 := lib.AddConcurrentHandlers client1 handler c.concurrency
      Consumer.connect lib { c with client := some client2 }
        (calls ++ [.newConsumer c.topic c.channel none, .setLogger c.level,
          .addConcurrentHandlers c.concurrency])

/-- The method `Stop()`, with the calls made so far. With a nil `client` the call
`c.client.Stop()` dereferences a nil pointer. After the library's `Stop` the method
receives from `c.client.StopChan`: it goes on to `return nil` when that receive
completes, and never returns when the channel is never closed. -/
def Consumer.Stop (lib : Nsq Cfg Client Logger Handler) (c : Consumer Cfg Client Logger)
    (calls : List Call) : Ending (Consumer Cfg Client Logger) :=
  match c.client with
  | none => .panic
  | some client =>
    let client1 := lib.Stop client
    if lib.StopChan client1 then
      .returned { c with client := some client1 } (calls ++ [.stop]) none
    else
      .blocked { c with client := some client1 } (calls ++ [.stop])

/-- The keys `Set` handles itself; every other key is passed on to the library. -/
def customOptions : List String :=
  ["topic", "channel", "concurrency", "nsqd", "nsqlookupd", "nsqds", "nsqlookupds"]

/-- The error a call `Set(option, value)` assigns to `c.err`, `none` when the call assigns
none: the two `strings` branches assign the formatted error of `strings`, the default
branch assigns the error of the library's setter, no other branch assigns to `c.err`. -/
def Consumer.setFailure (lib : Nsq Cfg Client Logger Handler) (c : Consumer Cfg Client Logger)
    (option : String) (value : Value) : Option Err :=
  if option = "nsqds" ∨ option = "nsqlookupds" then
    match strings value with
    | .error err => some (.errorf (quote option ++ ": " ++ err.Error))
    | .ok _ => none
  else if option ∈ customOptions then none
  else (lib.configSet c.config option value).2.map Err.lib

/-- The errors assigned to `c.err` during a run of `Set` calls, in the order of the
calls. -/
def Consumer.failures (lib : Nsq Cfg Client Logger Handler) (c : Consumer Cfg Client Logger) :
    List (String × Value) → List Err
  | [] => []
  | (k, v) :: rest =>
    (c.setFailure lib k v).toList ++
      (match c.Set lib k v with
       | none => []
       | some c1 => Consumer.failures lib c1 rest)

end Operations

/-- Whether the dynamic type of a value is `string`. -/
def Value.isString : Value → Bool
  | .str _ => true
  | _ => false

/-- A small instance of the library interface, on which the model is evaluated at
concrete inputs: the configuration is the list of keys set so far, the setter rejects a
`max_in_flight` that is not an integer, the client is the list of addresses it is
connected to, a connection to an empty address fails, a stop drops the connections, and
`StopChan` is closed once no connection is left. -/
def demoLib : Nsq (List String) (List String) Unit Unit where
  NewConfig := []
  LogLevelInfo := 1
  stderrLogger := ()
  configSet := fun cfg k v =>
    if k = "max_in_flight" ∧ (assertInt v).isNone then
      (cfg, some ("failed to coerce option max_in_flight (" ++ fmtV v ++ ")"))
    else (cfg ++ [k], none)
  NewConsumer := fun topic _ _ => if topic = "" then .error "invalid topic name" else .ok []
  SetLogger := fun client _ _ => client
  AddConcurrentHandlers := fun client _ _ => client
  ConnectToNSQDs := fun client l =>
    if "" ∈ l then (client, some "failed to connect to nsqd") else (client ++ l, none)
  ConnectToNSQLookupds := fun client l =>
    if "" ∈ l then (client, some "failed to connect to nsqlookupd") else (client ++ l, none)
  Stop := fun _ => []
  StopChan := fun client => client.isEmpty

/-- The library `demoLib` with a consumer that never closes its `StopChan`. -/
def stuckLib : Nsq (List String) (List String) Unit Unit :=
  { demoLib with StopChan := fun _ => false }

/-- The consumer of the tests: `NewConsumer("events", "ingestion")`. -/
def demoConsumer : Consumer (List String) (List String) Unit :=
  NewConsumer demoLib "events" "ingestion"

/-! ## Lemmas on `strings` -/

section Proofs

variable {Cfg Client Logger Handler : Type}

theorem stringsLoop_map_str (l ret : List String) :
    stringsLoop (l.map Value.str) ret = .ok (ret ++ l) := by
  induction l generalizing ret with
  | nil => simp [stringsLoop]
  | cons s t ih => simp [stringsLoop, ih]

theorem stringsLoop_offending (pre : List String) (x : Value) (post : List Value)
    (ret : List String) (hx : x.isString = false) :
    stringsLoop (pre.map Value.str ++ x :: post) ret
      = .error (.errorf ("string expected, got " ++ fmtV x)) := by
  induction pre generalizing ret with
  | nil => cases x <;> simp_all [stringsLoop, Value.isString]
  | cons s t ih => simp [stringsLoop, ih]

theorem stringsLoop_ok (l : List Value) (ret ss : List String)
    (h : stringsLoop l ret = .ok ss) : ∃ t : List String, l = t.map Value.str ∧ ss = ret ++ t := by
  induction l generalizing ret with
  | nil =>
    refine ⟨[], rfl, ?_⟩
    simp [stringsLoop] at h
    simp [h]
  | cons e rest ih =>
    cases e with
    | str s =>
      simp only [stringsLoop] at h
      obtain ⟨t, ht, hss⟩ := ih _ h
      exact ⟨s :: t, by simp [ht], by simp [hss]⟩
    | int n => simp [stringsLoop] at h
    | strs l => simp [stringsLoop] at h
    | ifaces l => simp [stringsLoop] at h
    | other r => simp [stringsLoop] at h

/-- Every `[]interface{}` is a run of strings, or a run of strings followed by a first
element that is not a string. -/
theorem ifaces_split (l : List Value) :
    (∃ t : List String, l = t.map Value.str) ∨
    (∃ (pre : List String) (x : Value) (post : List Value),
      x.isString = false ∧ l = pre.map Value.str ++ x :: post) := by
  induction l with
  | nil => exact Or.inl ⟨[], rfl⟩
  | cons e rest ih =>
    cases he : e.isString with
    | false => exact Or.inr ⟨[], e, rest, he, rfl⟩
    | true =>
      obtain ⟨s, rfl⟩ : ∃ s, e = Value.str s := by
        cases e <;> simp_all [Value.isString]
      rcases ih with ⟨t, rfl⟩ | ⟨pre, x, post, hx, rfl⟩
      · exact Or.inl ⟨s :: t, rfl⟩
      · exact Or.inr ⟨s :: pre, x, post, hx, rfl⟩

/-- The successful results of `strings`: the native list itself, or the strings of a
generic list of strings. -/
theorem strings_ok_iff (v : Value) (ss : List String) :
    strings v = .ok ss ↔ (v = .strs ss ∨ v = .ifaces (ss.map Value.str)) := by
  constructor
  · intro h
    cases v with
    | strs l => simp [strings] at h; simp [h]
    | ifaces l =>
      simp only [strings] at h
      obtain ⟨t, ht, hss⟩ := stringsLoop_ok l [] ss h
      simp at hss
      subst hss
      exact Or.inr (by rw [ht])
    | str s => simp [strings] at h
    | int n => simp [strings] at h
    | other r => simp [strings] at h
  · rintro (rfl | rfl)
    · rfl
    · simp [strings, stringsLoop_map_str]

/-! ## Lemmas on `Set` -/

/-- The slot `c.err` after a `Set` call that returned: the error the call assigned, or
the former content. -/
theorem Set_err (lib : Nsq Cfg Client Logger Handler) (c c1 : Consumer Cfg Client Logger)
    (k : String) (v : Value) (h : c.Set lib k v = some c1) :
    c1.err = (match c.setFailure lib k v with
              | some e => some e
              | none => c.err) := by
  unfold Consumer.Set at h
  unfold Consumer.setFailure
  split_ifs at h with h1 h2 h3 h4 h5 h6 h7
  all_goals first
    | (subst_vars
       simp only [Option.map_eq_some'] at h
       obtain ⟨s, -, rfl⟩ := h
       simp [customOptions])
    | (subst_vars
       cases hs : strings v with
       | error err => rw [hs] at h; simp at h; subst h; simp
       | ok s => rw [hs] at h; simp at h; subst h; simp)
    | (have hk : k ∉ customOptions := by simp [customOptions, *]
       simp only [h6, h7, or_self, if_false, hk]
       rcases hcs : lib.configSet c.config k v with ⟨cfg, _ | text⟩
       · rw [hcs] at h; simp at h; subst h; simp
       · rw [hcs] at h; simp at h; subst h; simp)

/-- A run of `Set` calls over two lists in a row. -/
theorem SetMap_append (lib : Nsq Cfg Client Logger Handler) (c : Consumer Cfg Client Logger)
    (a b : List (String × Value)) :
    c.SetMap lib (a ++ b) = (c.SetMap lib a).bind fun c1 => c1.SetMap lib b := by
  induction a generalizing c with
  | nil => rfl
  | cons kv rest ih =>
    obtain ⟨k, v⟩ := kv
    simp only [List.cons_append, Consumer.SetMap]
    cases c.Set lib k v with
    | none => rfl
    | some c1 => exact ih c1

/-- The slot `c.err` after a run of `Set` calls that returned: the error of the last
call that assigned one, or the former content. -/
theorem SetMap_err (lib : Nsq Cfg Client Logger Handler) (c c1 : Consumer Cfg Client Logger)
    (l : List (String × Value)) (h : c.SetMap lib l = some c1) :
    c1.err = (match (c.failures lib l).getLast? with
              | some e => some e
              | none => c.err) := by
  induction l generalizing c with
  | nil =>
    simp [Consumer.SetMap] at h
    subst h
    rfl
  | cons kv rest ih =>
    obtain ⟨k, v⟩ := kv
    simp only [Consumer.SetMap] at h
    simp only [Consumer.failures]
    cases hs : c.Set lib k v with
    | none => rw [hs] at h; cases h
    | some c2 =>
      rw [hs] at h
      have h2 := ih c2 h
      have h1 := Set_err lib c c2 k v hs
      rw [h2, h1]
      dsimp only
      generalize c2.failures lib rest = fs
      cases fs with
      | nil => cases c.setFailure lib k v <;> simp
      | cons e t =>
        have : ((c.setFailure lib k v).toList ++ e :: t).getLast? = (e :: t).getLast? := by
          cases c.setFailure lib k v <;> simp [List.getLast?_cons_cons]
        rw [this]
        cases hl : (e :: t).getLast? with
        | none => simp at hl
        | some e1 => rfl

/-- The errors assigned during a run of `Set` calls over two lists in a row. -/
theorem failures_append (lib : Nsq Cfg Client Logger Handler)
    (c c1 : Consumer Cfg Client Logger) (a b : List (String × Value))
    (h : c.SetMap lib a = some c1) :
    c.failures lib (a ++ b) = c.failures lib a ++ c1.failures lib b := by
  induction a generalizing c with
  | nil =>
    simp [Consumer.SetMap] at h
    subst h
    simp [Consumer.failures]
  | cons kv rest ih =>
    obtain ⟨k, v⟩ := kv
    simp only [Consumer.SetMap] at h
    simp only [List.cons_append, Consumer.failures]
    cases hs : c.Set lib k v with
    | none => rw [hs] at h; cases h
    | some c2 =>
      rw [hs] at h
      have h3 := ih c2 h
      simp only [List.append_assoc]
      exact congrArg _ h3

/-! ## Lemmas on `connect` -/

/-- The run of `connect` on a consumer with a client and at least one address. -/
theorem connect_with_client (lib : Nsq Cfg Client Logger Handler)
    (c : Consumer Cfg Client Logger) (client : Client) (calls : List Call)
    (hclient : c.client = some client) (haddr : c.nsqds ≠ [] ∨ c.nsqlookupds ≠ []) :
    ∃ (c1 : Consumer Cfg Client Logger) (made : List Call) (err : Option Err),
      c.connect lib calls = some (c1, calls ++ made, err) ∧
      made =
        (if c.nsqds = [] then []
          else [Call.connectToNSQDs c.nsqds ((lib.ConnectToNSQDs client c.nsqds).2.map Err.lib)]) ++
        (if c.nsqlookupds = [] ∨ (c.nsqds ≠ [] ∧ (lib.ConnectToNSQDs client c.nsqds).2 ≠ none)
          then []
          else [Call.connectToNSQLookupds c.nsqlookupds
            ((lib.ConnectToNSQLookupds
                (if c.nsqds = [] then client else (lib.ConnectToNSQDs client c.nsqds).1)
                c.nsqlookupds).2.map Err.lib)]) ∧
      (∀ text, c.nsqds ≠ [] → (lib.ConnectToNSQDs client c.nsqds).2 = some text →
        err = some (.lib text) ∧ made = [Call.connectToNSQDs c.nsqds (some (.lib text))]) ∧
      (err = none ↔ ∀ x ∈ made, x.connectResult = none) ∧
      (∀ e, err = some e → (∃ text, e = Err.lib text) ∧
        ∃ x, (calls ++ made).getLast? = some x ∧ x.isConnect = true ∧
          x.connectResult = some e) ∧
      (∃ client1, c1 = { c with client := some client1 }) := by
  have hne : ¬ (c.nsqds.length = 0 ∧ c.nsqlookupds.length = 0) := by
    rintro ⟨ha, hb⟩
    rcases haddr with h | h
    · exact h (List.length_eq_zero.mp ha)
    · exact h (List.length_eq_zero.mp hb)
  unfold Consumer.connect
  rw [if_neg hne]
  by_cases h1 : c.nsqds = []
  · have h3 : c.nsqlookupds ≠ [] := by
      rcases haddr with h | h
      · exact absurd h1 h
      · exact h
    have h3l : c.nsqlookupds.length > 0 := List.length_pos.mpr h3
    simp only [h1, List.length_nil, gt_iff_lt, lt_self_iff_false, if_false, h3l, if_true,
      hclient]
    refine ⟨_, _, _, rfl, ?_, ?_, ?_, ?_, ⟨_, rfl⟩⟩
    · simp [h3]
    · intro text h
      exact absurd rfl h
    · cases (lib.ConnectToNSQLookupds client c.nsqlookupds).2 <;> simp [Call.connectResult]
    · intro e he
      refine ⟨?_, Call.connectToNSQLookupds c.nsqlookupds
        ((lib.ConnectToNSQLookupds client c.nsqlookupds).2.map Err.lib),
        List.getLast?_concat _, rfl, he⟩
      cases hl : (lib.ConnectToNSQLookupds client c.nsqlookupds).2 with
      | none => rw [hl] at he; cases he
      | some t => rw [hl] at he; cases he; exact ⟨t, rfl⟩
  · have h1l : c.nsqds.length > 0 := List.length_pos.mpr h1
    simp only [h1l, if_true, hclient]
    cases hrb : (lib.ConnectToNSQDs client c.nsqds).2 with
    | some text =>
      refine ⟨{ c with client := some (lib.ConnectToNSQDs client c.nsqds).1 },
        [Call.connectToNSQDs c.nsqds (some (.lib text))], some (.lib text), ?_, ?_, ?_,
        ?_, ?_, ⟨_, rfl⟩⟩
      · simp
      · simp [h1]
      · intro t _ ht
        cases ht
        exact ⟨rfl, rfl⟩
      · simp [Call.connectResult]
      · intro e he
        cases he
        exact ⟨⟨text, rfl⟩, Call.connectToNSQDs c.nsqds (some (.lib text)),
          List.getLast?_concat _, rfl, rfl⟩
    | none =>
      by_cases h3 : c.nsqlookupds = []
      · refine ⟨{ c with client := some (lib.ConnectToNSQDs client c.nsqds).1 },
          [Call.connectToNSQDs c.nsqds none], none, ?_, ?_, ?_, ?_, ?_, ⟨_, rfl⟩⟩
        · simp [h3]
        · simp [h1, h3]
        · intro t _ ht
          cases ht
        · simp [Call.connectResult]
        · intro e he
          cases he
      · have h3l : c.nsqlookupds.length > 0 := List.length_pos.mpr h3
        refine ⟨{ c with client := some (lib.ConnectToNSQLookupds
              (lib.ConnectToNSQDs client c.nsqds).1 c.nsqlookupds).1 },
          [Call.connectToNSQDs c.nsqds none,
          Call.connectToNSQLookupds c.nsqlookupds
            ((lib.ConnectToNSQLookupds (lib.ConnectToNSQDs client c.nsqds).1
              c.nsqlookupds).2.map Err.lib)],
          (lib.ConnectToNSQLookupds (lib.ConnectToNSQDs client c.nsqds).1
              c.nsqlookupds).2.map Err.lib, ?_, ?_, ?_, ?_, ?_, ⟨_, rfl⟩⟩
        · simp [h3l]
        · simp [h1, h3]
        · intro t _ ht
          cases ht
        · cases (lib.ConnectToNSQLookupds (lib.ConnectToNSQDs client c.nsqds).1
              c.nsqlookupds).2 <;> simp [Call.connectResult]
        · intro e he
          refine ⟨?_, Call.connectToNSQLookupds c.nsqlookupds
            ((lib.ConnectToNSQLookupds (lib.ConnectToNSQDs client c.nsqds).1
              c.nsqlookupds).2.map Err.lib), ?_, rfl, he⟩
          · cases hl : (lib.ConnectToNSQLookupds (lib.ConnectToNSQDs client c.nsqds).1
                c.nsqlookupds).2 with
            | none => rw [hl] at he; cases he
            | some t => rw [hl] at he; cases he; exact ⟨t, rfl⟩
          · rw [show ∀ (a b : Call), calls ++ [a, b] = (calls ++ [a]) ++ [b] from
              fun a b => by simp]
            exact List.getLast?_concat _

/-- Without a client and with at least one address, `connect` panics. -/
theorem connect_without_client (lib : Nsq Cfg Client Logger Handler)
    (c : Consumer Cfg Client Logger) (calls : List Call)
    (hclient : c.client = none) (haddr : c.nsqds ≠ [] ∨ c.nsqlookupds ≠ []) :
    c.connect lib calls = none := by
  have hne : ¬ (c.nsqds.length = 0 ∧ c.nsqlookupds.length = 0) := by
    rintro ⟨ha, hb⟩
    rcases haddr with h | h
    · exact h (List.length_eq_zero.mp ha)
    · exact h (List.length_eq_zero.mp hb)
  unfold Consumer.connect
  rw [if_neg hne]
  by_cases h1 : c.nsqds = []
  · have h3 : c.nsqlookupds ≠ [] := by
      rcases haddr with h | h
      · exact absurd h1 h
      · exact h
    have h3l : c.nsqlookupds.length > 0 := List.length_pos.mpr h3
    simp [h1, h3l, hclient]
  · have h1l : c.nsqds.length > 0 := List.length_pos.mpr h1
    simp [h1l, hclient]

/-! ## The claims -/

/-- C7: `strings` returns the list `ss` exactly when its argument is the native list of
strings `ss` or a generic list whose elements are the strings `ss`, in this order; for a
generic list with an element that is not a string it returns the error
`string expected, got` followed by the first such element, and for a value of any other
shape the error `strings expected`. -/
theorem strings_spec :
    (∀ (v : Value) (ss : List String),
      strings v = .ok ss ↔ (v = .strs ss ∨ v = .ifaces (ss.map Value.str))) ∧
    (∀ (pre : List String) (x : Value) (post : List Value), x.isString = false →
      strings (.ifaces (pre.map Value.str ++ x :: post))
        = .error (.errorf ("string expected, got " ++ fmtV x))) ∧
    (∀ v : Value, (∀ l, v ≠ .strs l) → (∀ l, v ≠ .ifaces l) →
      strings v = .error (.errorf "strings expected")) ∧
    (∀ v : Value, (∃ ss, strings v = .ok ss) ∨ (∃ text, strings v = .error (.errorf text))) := by
  refine ⟨?_, ?_, ?_, ?_⟩
  · exact strings_ok_iff
  · intro pre x post hx
    simp [strings, stringsLoop_offending pre x post [] hx]
  · intro v h1 h2
    cases v with
    | strs l => exact absurd rfl (h1 l)
    | ifaces l => exact absurd rfl (h2 l)
    | str s => rfl
    | int n => rfl
    | other r => rfl
  · intro v
    cases v with
    | strs l => exact Or.inl ⟨l, rfl⟩
    | ifaces l =>
      rcases ifaces_split l with ⟨t, rfl⟩ | ⟨pre, x, post, hx, rfl⟩
      · exact Or.inl ⟨t, by simp [strings, stringsLoop_map_str]⟩
      · exact Or.inr ⟨_, stringsLoop_offending pre x post [] hx⟩
    | str s => exact Or.inr ⟨_, rfl⟩
    | int n => exact Or.inr ⟨_, rfl⟩
    | other r => exact Or.inr ⟨_, rfl⟩

/-- Witness of C7 on the list of the tests and on a list with a number in it. -/
theorem strings_spec_witness :
    strings (.ifaces [.str ":5001"]) = .ok [":5001"] ∧
    strings (.ifaces [.str ":5001", .int 7, .other "true"])
      = .error (.errorf "string expected, got 7") ∧
    strings (.other "<nil>") = .error (.errorf "strings expected") :=
  ⟨(strings_spec.1 _ _).2 (Or.inr rfl),
   strings_spec.2.1 [":5001"] (.int 7) [.other "true"] rfl,
   strings_spec.2.2.1 (.other "<nil>") (fun _ h => by cases h) (fun _ h => by cases h)⟩

/-- C5: with a pending configuration error `Start` returns that error and changes
nothing: the consumer, its `client` field included, is as before, and no call is made
into the library (no client construction, no handler registration, no connection). -/
theorem Start_pending_error (lib : Nsq Cfg Client Logger Handler)
    (c : Consumer Cfg Client Logger) (handler : Handler) (calls : List Call) (e : Err)
    (h : c.err = some e) :
    c.Start lib handler calls = some (c, calls, some e) := by
  simp [Consumer.Start, h]

/-- Witness of C5: a consumer with a recorded type error and no client. -/
theorem Start_pending_error_witness :
    ({ demoConsumer with err := some (.errorf "strings expected") } :
        Consumer (List String) (List String) Unit).err = some (.errorf "strings expected") ∧
    Consumer.Start demoLib { demoConsumer with err := some (.errorf "strings expected") } () []
      = some ({ demoConsumer with err := some (.errorf "strings expected") }, [],
          some (.errorf "strings expected")) :=
  ⟨rfl, Start_pending_error demoLib _ () [] _ rfl⟩

/-- C8: for the keys `nsqds` and `nsqlookupds` and a generic list whose first element
that is not a string is `x`, `Set` records the error whose text is the key in double
quotes, `: string expected, got ` and `x` as `%v` prints it, changes no other field, and
the next `Start` returns that error. -/
theorem Set_list_type_error (lib : Nsq Cfg Client Logger Handler)
    (c : Consumer Cfg Client Logger) (key : String) (pre : List String) (x : Value)
    (post : List Value) (handler : Handler) (calls : List Call)
    (hkey : key = "nsqds" ∨ key = "nsqlookupds") (hx : x.isString = false) :
    c.Set lib key (.ifaces (pre.map Value.str ++ x :: post))
      = some { c with
          err := some (.errorf ("\"" ++ key ++ "\"" ++ ": " ++ ("string expected, got " ++ fmtV x))) } ∧
    Consumer.Start lib { c with
          err := some (.errorf ("\"" ++ key ++ "\"" ++ ": " ++ ("string expected, got " ++ fmtV x))) }
        handler calls
      = some ({ c with
          err := some (.errorf ("\"" ++ key ++ "\"" ++ ": " ++ ("string expected, got " ++ fmtV x))) },
          calls,
          some (.errorf ("\"" ++ key ++ "\"" ++ ": " ++ ("string expected, got " ++ fmtV x)))) := by
  have hs : strings (.ifaces (pre.map Value.str ++ x :: post))
      = .error (.errorf ("string expected, got " ++ fmtV x)) :=
    stringsLoop_offending pre x post [] hx
  refine ⟨?_, by simp [Consumer.Start]⟩
  rcases hkey with rfl | rfl
  · have hq : quote "nsqds" = "\"" ++ "nsqds" ++ "\"" := by decide
    simp only [Consumer.Set, hs, hq, Err.Error]
    simp
  · have hq : quote "nsqlookupds" = "\"" ++ "nsqlookupds" ++ "\"" := by decide
    simp only [Consumer.Set, hs, hq, Err.Error]
    simp

/-- Witness of C8: `Set("nsqds", []interface{}{":5001", 7, true})` on the consumer of the
tests. -/
theorem Set_list_type_error_witness :
    demoConsumer.Set demoLib "nsqds" (.ifaces [.str ":5001", .int 7, .other "true"])
      = some { demoConsumer with err := some (.errorf "\"nsqds\": string expected, got 7") } ∧
    Consumer.Start demoLib
        { demoConsumer with err := some (.errorf "\"nsqds\": string expected, got 7") } () []
      = some ({ demoConsumer with err := some (.errorf "\"nsqds\": string expected, got 7") },
          [], some (.errorf "\"nsqds\": string expected, got 7")) :=
  Set_list_type_error demoLib demoConsumer "nsqds" [":5001"] (.int 7) [.other "true"] () []
    (Or.inl rfl) rfl

/-- C9: an assignment to an address class overwrites it. `Set("nsqd", a)` then
`Set("nsqds", l)` leaves the broker list equal to `l`, the other order leaves it equal to
`[a]`; the same for `nsqlookupd`, `nsqlookupds` and the discovery list; a `Set` on a key
of one class leaves the list of the other class as it was. -/
theorem Set_address_last_wins (lib : Nsq Cfg Client Logger Handler)
    (c : Consumer Cfg Client Logger) (a : String) (l : List String) (v : Value)
    (hv : v = .strs l ∨ v = .ifaces (l.map Value.str)) :
    ((c.Set lib "nsqd" (.str a)).bind fun c1 => c1.Set lib "nsqds" v)
      = some { c with nsqds := l } ∧
    ((c.Set lib "nsqds" v).bind fun c1 => c1.Set lib "nsqd" (.str a))
      = some { c with nsqds := [a] } ∧
    ((c.Set lib "nsqlookupd" (.str a)).bind fun c1 => c1.Set lib "nsqlookupds" v)
      = some { c with nsqlookupds := l } ∧
    ((c.Set lib "nsqlookupds" v).bind fun c1 => c1.Set lib "nsqlookupd" (.str a))
      = some { c with nsqlookupds := [a] } ∧
    (∀ (k : String) (w : Value) (c1 : Consumer Cfg Client Logger),
      k = "nsqd" ∨ k = "nsqds" → c.Set lib k w = some c1 → c1.nsqlookupds = c.nsqlookupds) ∧
    (∀ (k : String) (w : Value) (c1 : Consumer Cfg Client Logger),
      k = "nsqlookupd" ∨ k = "nsqlookupds" → c.Set lib k w = some c1 → c1.nsqds = c.nsqds) := by
  have hs : strings v = .ok l := (strings_ok_iff v l).2 hv
  refine ⟨?_, ?_, ?_, ?_, ?_, ?_⟩
  · simp [Consumer.Set, hs, assertString]
  · simp [Consumer.Set, hs, assertString]
  · simp [Consumer.Set, hs, assertString]
  · simp [Consumer.Set, hs, assertString]
  · rintro k w c1 (rfl | rfl) h
    · simp only [Consumer.Set] at h
      simp at h
      obtain ⟨s, -, rfl⟩ := h
      rfl
    · simp only [Consumer.Set] at h
      simp at h
      cases hw : strings w with
      | error err => rw [hw] at h; simp at h; subst h; rfl
      | ok s => rw [hw] at h; simp at h; subst h; rfl
  · rintro k w c1 (rfl | rfl) h
    · simp only [Consumer.Set] at h
      simp at h
      obtain ⟨s, -, rfl⟩ := h
      rfl
    · simp only [Consumer.Set] at h
      simp at h
      cases hw : strings w with
      | error err => rw [hw] at h; simp at h; subst h; rfl
      | ok s => rw [hw] at h; simp at h; subst h; rfl

/-- Witness of C9: the two calls of the tests, `Set("nsqd", ":5001")` and
`Set("nsqds", []interface{}{":5002", ":5003"})`. -/
theorem Set_address_last_wins_witness :
    ((demoConsumer.Set demoLib "nsqd" (.str ":5001")).bind fun c1 =>
        c1.Set demoLib "nsqds" (.ifaces [.str ":5002", .str ":5003"]))
      = some { demoConsumer with nsqds := [":5002", ":5003"] } ∧
    ((demoConsumer.Set demoLib "nsqds" (.ifaces [.str ":5002", .str ":5003"])).bind fun c1 =>
        c1.Set demoLib "nsqd" (.str ":5001"))
      = some { demoConsumer with nsqds := [":5001"] } :=
  ⟨(Set_address_last_wins demoLib demoConsumer ":5001" [":5002", ":5003"]
      (.ifaces [.str ":5002", .str ":5003"]) (Or.inr rfl)).1,
   (Set_address_last_wins demoLib demoConsumer ":5001" [":5002", ":5003"]
      (.ifaces [.str ":5002", .str ":5003"]) (Or.inr rfl)).2.1⟩

/-- C3, evaluated on the code: `Set("topic", 5)` and `Set("concurrency", "5")` do not
return, on any consumer: the type assertion panics, no error is recorded for `Start`;
the same for a value that is not a string under `channel`, `nsqd` and `nsqlookupd`. -/
theorem Set_wrong_type_panics (lib : Nsq Cfg Client Logger Handler)
    (c : Consumer Cfg Client Logger) :
    c.Set lib "topic" (.int 5) = none ∧
    c.Set lib "concurrency" (.str "5") = none ∧
    c.Set lib "channel" (.int 5) = none ∧
    c.Set lib "nsqd" (.strs [":5001"]) = none ∧
    c.Set lib "nsqlookupd" (.other "<nil>") = none := by
  simp [Consumer.Set, assertString, assertInt]

/-- C6 as stated fails: on a consumer on which `Start` was never called, and on one on
which `Start` returned a pending configuration error, `Stop` does not return nil: it
panics on the nil `client`. -/
theorem Stop_without_client_panics :
    demoConsumer.Stop demoLib [] = .panic ∧
    (∃ c1 c2 calls, demoConsumer.Set demoLib "nsqds" (.other "<nil>") = some c1 ∧
      c1.Start demoLib () [] = some (c2, calls, some (.errorf "\"nsqds\": strings expected")) ∧
      c2.Stop demoLib calls = .panic) :=
  ⟨rfl, _, _, _, rfl, rfl, rfl⟩

/-- C6, amended: `Stop` never returns an error. On a consumer whose `client` is set it
calls the library's stop once and then returns nil if the receive on the client's
`StopChan` completes, and blocks for ever if that channel is never closed; and on any
consumer, when `Stop` returns, it returns nil, the `client` was set and the receive on
its `StopChan` completed. -/
theorem Stop_returns_nil (lib : Nsq Cfg Client Logger Handler)
    (c : Consumer Cfg Client Logger) (calls : List Call) (client : Client)
    (h : c.client = some client) :
    (lib.StopChan (lib.Stop client) = true →
      c.Stop lib calls
        = .returned { c with client := some (lib.Stop client) } (calls ++ [.stop]) none) ∧
    (lib.StopChan (lib.Stop client) = false →
      c.Stop lib calls = .blocked { c with client := some (lib.Stop client) } (calls ++ [.stop])) ∧
    (∀ (c0 c1 : Consumer Cfg Client Logger) (calls0 calls1 : List Call) (err : Option Err),
      c0.Stop lib calls0 = .returned c1 calls1 err →
        err = none ∧ ∃ client0, c0.client = some client0 ∧
          lib.StopChan (lib.Stop client0) = true ∧
          c1 = { c0 with client := some (lib.Stop client0) } ∧ calls1 = calls0 ++ [.stop]) := by
  refine ⟨?_, ?_, ?_⟩
  · intro hc
    simp [Consumer.Stop, h, hc]
  · intro hc
    simp [Consumer.Stop, h, hc]
  · intro c0 c1 calls0 calls1 err hr
    unfold Consumer.Stop at hr
    cases hc : c0.client with
    | none => rw [hc] at hr; cases hr
    | some cl =>
      rw [hc] at hr
      by_cases hch : lib.StopChan (lib.Stop cl) = true
      · simp only [hch, if_true] at hr
        cases hr
        exact ⟨rfl, cl, rfl, hch, rfl, rfl⟩
      · simp only [hch] at hr
        cases hr

/-- Witness of C6, amended: `Stop` after the `Start` of the tests, with one broker
address, on a library that closes `StopChan` and on one that never does. -/
theorem Stop_returns_nil_witness :
    ({ demoConsumer with client := some [":5001"], nsqds := [":5001"] } :
        Consumer (List String) (List String) Unit).client = some [":5001"] ∧
    Consumer.Stop demoLib { demoConsumer with client := some [":5001"], nsqds := [":5001"] } []
      = .returned { demoConsumer with client := some [], nsqds := [":5001"] } [.stop] none ∧
    Consumer.Stop stuckLib { demoConsumer with client := some [":5001"], nsqds := [":5001"] } []
      = .blocked { demoConsumer with client := some [], nsqds := [":5001"] } [.stop] :=
  ⟨rfl,
   (Stop_returns_nil demoLib
      { demoConsumer with client := some [":5001"], nsqds := [":5001"] } [] [":5001"] rfl).1 rfl,
   (Stop_returns_nil stuckLib
      { demoConsumer with client := some [":5001"], nsqds := [":5001"] } [] [":5001"] rfl).2.1 rfl⟩

/-- C1: with both address lists empty, no pending error and a client that the library
constructs, `Start` returns the error
`at least one "nsqd" or "nsqlookupd" address must be configured` after the construction,
the logger and the handler calls only, none of them a connection attempt; and when one
of the lists of a consumer is not empty, `connect` does not return that error: an error
it returns is the result of the connection call it made last. -/
theorem Start_missing_address (lib : Nsq Cfg Client Logger Handler)
    (c : Consumer Cfg Client Logger) (handler : Handler) (calls : List Call) (client : Client)
    (c2 : Consumer Cfg Client Logger) (calls2 : List Call)
    (r : Consumer Cfg Client Logger × List Call × Option Err)
    (hb : c.nsqds = []) (hd : c.nsqlookupds = []) (herr : c.err = none)
    (hnew : lib.NewConsumer c.topic c.channel c.config = .ok client)
    (h2 : c2.nsqds ≠ [] ∨ c2.nsqlookupds ≠ []) (hr : c2.connect lib calls2 = some r) :
    (c.Start lib handler calls
      = some ({ c with client := some (lib.AddConcurrentHandlers
                  (lib.SetLogger client c.log c.level) handler c.concurrency) },
          calls ++ [.newConsumer c.topic c.channel none, .setLogger c.level,
            .addConcurrentHandlers c.concurrency],
          some (.errorf "at least one \"nsqd\" or \"nsqlookupd\" address must be configured")) ∧
      ∀ x ∈ [Call.newConsumer c.topic c.channel none, .setLogger c.level,
            .addConcurrentHandlers c.concurrency], x.isConnect = false) ∧
    r.2.2 ≠ some (.errorf "at least one \"nsqd\" or \"nsqlookupd\" address must be configured") ∧
    (∀ e, r.2.2 = some e → ∃ x, r.2.1.getLast? = some x ∧ x.isConnect = true ∧
      x.connectResult = some e) := by
  refine ⟨⟨?_, by simp [Call.isConnect]⟩, ?_⟩
  · simp [Consumer.Start, herr, hnew, Consumer.connect, hb, hd]
  · cases hcl : c2.client with
    | none =>
      rw [connect_without_client lib c2 calls2 hcl h2] at hr
      cases hr
    | some cl =>
      obtain ⟨c1, made, err, hconn, -, -, -, hlast, -⟩ :=
        connect_with_client lib c2 cl calls2 hcl h2
      rw [hconn] at hr
      cases hr
      refine ⟨?_, fun e he => (hlast e he).2⟩
      intro hbad
      obtain ⟨⟨text, ht⟩, -⟩ := hlast _ hbad
      cases ht

/-- Witness of C1: the consumer of `TestConsumer_Start_ConfigMissingDaemon`, and a
consumer with one broker address. -/
theorem Start_missing_address_witness :
    (demoConsumer.Start demoLib () []
      = some ({ demoConsumer with client := some [] },
          [.newConsumer "events" "ingestion" none, .setLogger 1, .addConcurrentHandlers 1],
          some (.errorf "at least one \"nsqd\" or \"nsqlookupd\" address must be configured")) ∧
      ∀ x ∈ [Call.newConsumer "events" "ingestion" none, .setLogger 1,
            .addConcurrentHandlers 1], x.isConnect = false) ∧
    (some (Err.lib "failed to connect to nsqd") : Option Err)
      ≠ some (.errorf "at least one \"nsqd\" or \"nsqlookupd\" address must be configured") := by
  have h := Start_missing_address demoLib demoConsumer () [] []
    ({ demoConsumer with client := some [], nsqds := [""] }) []
    ({ demoConsumer with client := some [], nsqds := [""] },
      [.connectToNSQDs [""] (some (.lib "failed to connect to nsqd"))],
      some (.lib "failed to connect to nsqd"))
    rfl rfl rfl rfl (Or.inl (by decide)) rfl
  exact ⟨h.1, h.2.1⟩

/-- C10: with a client and at least one address, `connect` calls `ConnectToNSQDs` with the
whole broker list if that list is not empty, then, unless that call failed,
`ConnectToNSQLookupds` with the whole discovery list if that list is not empty, and
makes no other call; a failure of the broker call is the error returned, with no
discovery call after it; the result is nil exactly when every call made succeeded; an
error returned is the result of the last call made; no field other than `client`
changes. -/
theorem connect_order (lib : Nsq Cfg Client Logger Handler)
    (c : Consumer Cfg Client Logger) (client : Client) (calls : List Call)
    (hclient : c.client = some client) (haddr : c.nsqds ≠ [] ∨ c.nsqlookupds ≠ []) :
    ∃ (c1 : Consumer Cfg Client Logger) (made : List Call) (err : Option Err),
      c.connect lib calls = some (c1, calls ++ made, err) ∧
      made =
        (if c.nsqds = [] then []
          else [Call.connectToNSQDs c.nsqds ((lib.ConnectToNSQDs client c.nsqds).2.map Err.lib)]) ++
        (if c.nsqlookupds = [] ∨ (c.nsqds ≠ [] ∧ (lib.ConnectToNSQDs client c.nsqds).2 ≠ none)
          then []
          else [Call.connectToNSQLookupds c.nsqlookupds
            ((lib.ConnectToNSQLookupds
                (if c.nsqds = [] then client else (lib.ConnectToNSQDs client c.nsqds).1)
                c.nsqlookupds).2.map Err.lib)]) ∧
      (∀ text, c.nsqds ≠ [] → (lib.ConnectToNSQDs client c.nsqds).2 = some text →
        err = some (.lib text) ∧ made = [Call.connectToNSQDs c.nsqds (some (.lib text))]) ∧
      (err = none ↔ ∀ x ∈ made, x.connectResult = none) ∧
      (∀ e, err = some e → (∃ text, e = Err.lib text) ∧
        ∃ x, (calls ++ made).getLast? = some x ∧ x.isConnect = true ∧
          x.connectResult = some e) ∧
      (∃ client1, c1 = { c with client := some client1 }) :=
  connect_with_client lib c client calls hclient haddr

/-- Witness of C10: a broker list whose connection fails, with a discovery list that is
then not tried. -/
theorem connect_order_witness :
    ∃ (c1 : Consumer (List String) (List String) Unit) (made : List Call) (err : Option Err),
      Consumer.connect demoLib
        { demoConsumer with client := some [], nsqds := [":5001", ""], nsqlookupds := [":4161"] } []
        = some (c1, [] ++ made, err) ∧
      made = [Call.connectToNSQDs [":5001", ""] (some (.lib "failed to connect to nsqd"))] ∧
      err = some (.lib "failed to connect to nsqd") := by
  obtain ⟨c1, made, err, h, _, hfail, _, _, _⟩ := connect_order demoLib
    { demoConsumer with client := some [], nsqds := [":5001", ""], nsqlookupds := [":4161"] }
    [] [] rfl (Or.inl (by decide))
  obtain ⟨he, hm⟩ := hfail "failed to connect to nsqd" (by decide) rfl
  exact ⟨c1, made, err, h, hm, he⟩

/-- C2 as stated fails: after `Set("nsqds", []interface{}{1})` and
`Set("nsqlookupds", []interface{}{2})`, both of which fail, the slot holds the error of
the second call, not the error of the first failing call. -/
theorem first_error_overwritten :
    ∃ c1 : Consumer (List String) (List String) Unit,
      demoConsumer.SetMap demoLib
        [("nsqds", .ifaces [.int 1]), ("nsqlookupds", .ifaces [.int 2])] = some c1 ∧
      (demoConsumer.failures demoLib
          [("nsqds", .ifaces [.int 1]), ("nsqlookupds", .ifaces [.int 2])]).head?
        = some (.errorf "\"nsqds\": string expected, got 1") ∧
      c1.err = some (.errorf "\"nsqlookupds\": string expected, got 2") ∧
      c1.err ≠ (demoConsumer.failures demoLib
          [("nsqds", .ifaces [.int 1]), ("nsqlookupds", .ifaces [.int 2])]).head? :=
  ⟨_, rfl, rfl, rfl, by decide⟩

/-- C2, amended: after a run of `Set` calls that all return, the slot holds the error of
the last call that failed, and its former content if none failed; so a slot that holds
an error is never cleared, and a call that does not fail leaves the slot as it is. -/
theorem last_error_kept (lib : Nsq Cfg Client Logger Handler)
    (c c1 : Consumer Cfg Client Logger) (l : List (String × Value))
    (h : c.SetMap lib l = some c1) :
    (c1.err = match (c.failures lib l).getLast? with
              | some e => some e
              | none => c.err) ∧
    (c.err ≠ none → c1.err ≠ none) ∧
    (c.failures lib l = [] → c1.err = c.err) := by
  have hmain := SetMap_err lib c c1 l h
  refine ⟨hmain, ?_, ?_⟩
  · intro hc
    rw [hmain]
    cases (c.failures lib l).getLast? with
    | none => exact hc
    | some e => simp
  · intro hf
    rw [hmain, hf]
    rfl

/-- Witness of C2, amended: two failing calls with a successful call between and after
them. -/
theorem last_error_kept_witness :
    Consumer.SetMap demoLib demoConsumer
        [("nsqds", .ifaces [.int 1]), ("nsqd", .str ":5001"),
         ("max_in_flight", .str "oh noes"), ("concurrency", .int 5)]
      = some { demoConsumer with
          nsqds := [":5001"], concurrency := 5,
          err := some (.lib "failed to coerce option max_in_flight (oh noes)") } ∧
    (some (Err.lib "failed to coerce option max_in_flight (oh noes)") : Option Err)
      = (match (demoConsumer.failures demoLib
          [("nsqds", .ifaces [.int 1]), ("nsqd", .str ":5001"),
           ("max_in_flight", .str "oh noes"), ("concurrency", .int 5)]).getLast? with
         | some e => some e
         | none => demoConsumer.err) :=
  ⟨rfl, (last_error_kept demoLib demoConsumer
      { demoConsumer with
          nsqds := [":5001"], concurrency := 5,
          err := some (.lib "failed to coerce option max_in_flight (oh noes)") }
      [("nsqds", .ifaces [.int 1]), ("nsqd", .str ":5001"),
       ("max_in_flight", .str "oh noes"), ("concurrency", .int 5)] rfl).1⟩

/-- C4: in a run of `Set` calls that all return, in which the call on the pass-through
key `k` is rejected by the library's setter with the error `text` and no call before or
after it fails, the next `Start` returns exactly that error, and does nothing else. -/
theorem Start_returns_setter_error (lib : Nsq Cfg Client Logger Handler)
    (c c1 c2 c3 : Consumer Cfg Client Logger) (pre post : List (String × Value))
    (k : String) (v : Value) (text : String) (handler : Handler) (calls : List Call)
    (hpre : c.SetMap lib pre = some c1) (hpreOk : c.failures lib pre = [])
    (hk : k ∉ customOptions) (hrej : (lib.configSet c1.config k v).2 = some text)
    (hset : c1.Set lib k v = some c2)
    (hpost : c2.SetMap lib post = some c3) (hpostOk : c2.failures lib post = []) :
    c.SetMap lib (pre ++ (k, v) :: post) = some c3 ∧
    c.failures lib (pre ++ (k, v) :: post) = [.lib text] ∧
    c3.Start lib handler calls = some (c3, calls, some (.lib text)) := by
  have hfail : c1.setFailure lib k v = some (.lib text) := by
    have hk1 : ¬ (k = "nsqds" ∨ k = "nsqlookupds") := by
      intro h
      apply hk
      rcases h with rfl | rfl <;> simp [customOptions]
    simp [Consumer.setFailure, hk1, hk, hrej]
  have hc2 : c2.err = some (.lib text) := by
    rw [Set_err lib c1 c2 k v hset, hfail]
  have hc3 : c3.err = some (.lib text) := by
    rw [SetMap_err lib c2 c3 post hpost, hpostOk]
    exact hc2
  refine ⟨?_, ?_, by simp [Consumer.Start, hc3]⟩
  · rw [SetMap_append, hpre]
    simp [Consumer.SetMap, hset, hpost]
  · rw [failures_append lib c c1 pre _ hpre, hpreOk]
    simp [Consumer.failures, hfail, hset, hpostOk]

/-- Witness of C4: the calls of `TestConsumer_Start_ConfigErrors`. -/
theorem Start_returns_setter_error_witness :
    Consumer.SetMap demoLib demoConsumer
        ([("nsqd", .str ":5001"), ("concurrency", .int 5), ("max_attempts", .int 10)] ++
          ("max_in_flight", .str "oh noes") :: [("default_requeue_delay", .str "15s")])
      = some { demoConsumer with
          config := ["max_attempts", "default_requeue_delay"],
          nsqds := [":5001"], concurrency := 5,
          err := some (.lib "failed to coerce option max_in_flight (oh noes)") } ∧
    Consumer.Start demoLib { demoConsumer with
          config := ["max_attempts", "default_requeue_delay"],
          nsqds := [":5001"], concurrency := 5,
          err := some (.lib "failed to coerce option max_in_flight (oh noes)") } () []
      = some ({ demoConsumer with
          config := ["max_attempts", "default_requeue_delay"],
          nsqds := [":5001"], concurrency := 5,
          err := some (.lib "failed to coerce option max_in_flight (oh noes)") }, [],
          some (.lib "failed to coerce option max_in_flight (oh noes)")) := by
  have h := Start_returns_setter_error demoLib demoConsumer
    ({ demoConsumer with config := ["max_attempts"], nsqds := [":5001"], concurrency := 5 })
    ({ demoConsumer with
        config := ["max_attempts"], nsqds := [":5001"], concurrency := 5,
        err := some (.lib "failed to coerce option max_in_flight (oh noes)") })
    ({ demoConsumer with
        config := ["max_attempts", "default_requeue_delay"],
        nsqds := [":5001"], concurrency := 5,
        err := some (.lib "failed to coerce option max_in_flight (oh noes)") })
    [("nsqd", .str ":5001"), ("concurrency", .int 5), ("max_attempts", .int 10)]
    [("default_requeue_delay", .str "15s")]
    "max_in_flight" (.str "oh noes") "failed to coerce option max_in_flight (oh noes)" () []
    rfl rfl (by decide) rfl rfl rfl rfl
  exact ⟨h.1, h.2.2⟩

end Proofs

end Queue
